import Mathlib

/-! Challenge verification middleware of the SCEP server.

A shallow embedding of `server/csrsigner.go` (package `scepserver`) and
`challenge/challenge.go` (package `challenge`).

Conventions of the embedding.

* A Go `string` is an immutable sequence of bytes: `GoString := List Byte`
  with `Byte := Fin 256`.  `str` turns a literal into its UTF-8 bytes.
* A Go pointer is an `Option`; dereferencing `none` panics.
* A Go `(*x509.Certificate, error)` result is `Outcome.ret cert err` with both
  components nilable; a run-time panic is `Outcome.panic`.
* Collaborators (the challenge store, the terminal signer, the HTTP client)
  act on an arbitrary collaborator state `σ`.  A run of a signer yields a
  `Run`: its outcome, the collaborator state it leaves, and the list `calls`
  of the calls that crossed an interface or library boundary during the run,
  in program order.  A call site of the embedded code puts its event in
  front of whatever the callee recorded, so "is never invoked" is a statement
  about `calls`.
-/

namespace Scep

/-! ## Data model -/

/-- One octet. -/
abbrev Byte := Fin 256

/-- Go `string`: a sequence of bytes. -/
abbrev GoString := List Byte

/-- UTF-8 bytes of a literal. -/
def str (s : String) : GoString := s.toUTF8.data.toList.map (fun b => b.val)

/-- Go `error` value, identified by its message (`errors.New`). -/
structure GoError where
  msg : String
  deriving DecidableEq, Repr

/-- Go `errors.New`. -/
def errors_New (text : String) : GoError := ⟨text⟩

/-- Result type `x509.Certificate` of a signing operation; its content is
not inspected by the embedded code. -/
structure Certificate where
  Raw : List Byte
  deriving DecidableEq, Repr

/-- Go `context.Context`, reduced to what `ctx.Err()` reports: `none` while the
context is live, an error once it is cancelled or past its deadline. -/
structure Context where
  Err : Option GoError
  deriving DecidableEq, Repr

/-- Distinguished name `pkix.Name`, the fields of the subject. -/
structure Name where
  CommonName : GoString
  Organization : List GoString
  OrganizationalUnit : List GoString
  deriving DecidableEq, Repr

/-- Go `x509.CertificateRequest`. -/
structure CertificateRequest where
  Raw : List Byte
  Subject : Name
  deriving DecidableEq, Repr

/-- Go `scep.CSRReqMessage`: the decrypted request handed to a signer.  `CSR` is
a pointer. -/
structure CSRReqMessage where
  RawDecrypted : List Byte
  CSR : Option CertificateRequest
  ChallengePassword : GoString
  deriving DecidableEq, Repr

/-- Go `http.Response`, as far as the code reads it. -/
structure Response where
  StatusCode : Int
  Body : List Byte
  deriving DecidableEq, Repr

/-- The struct `DeviceChallenge` with its JSON tags `device_id`, `challenge`. -/
structure DeviceChallenge where
  DeviceId : GoString
  Challenge : GoString
  deriving DecidableEq, Repr

/-- What a call of a signer produces: the returned pair, or a panic. -/
inductive Outcome where
  | ret (cert : Option Certificate) (err : Option GoError)
  | panic
  deriving DecidableEq, Repr

/-- A call that leaves the embedded code, as recorded in the trace. -/
inductive Event where
  | HasChallenge (pw : GoString)
  | SignCSRContext (ctx : Context) (m : Option CSRReqMessage)
  | SignCSR (m : Option CSRReqMessage)
  | Post (url : GoString) (contentType : GoString) (body : List Byte)
  | BodyClose (resp : Response)
  deriving DecidableEq, Repr

/-- What one run of a signer yields: the outcome, the collaborator state left
behind, and the outgoing calls made, in program order. -/
structure Run (σ : Type) where
  out : Outcome
  st : σ
  calls : List Event
  deriving DecidableEq, Repr

/-- Interface `challenge.Validator`: the behaviour of `HasChallenge(pw)` on the
collaborator state. -/
abbrev Validator (σ : Type) := GoString → σ → (Bool × Option GoError) × σ

/-- Interface `CSRSignerContext` and its function adapter
`CSRSignerContextFunc`: a signer taking a context and a request pointer. -/
abbrev CSRSignerContextFunc (σ : Type) :=
  Context → Option CSRReqMessage → σ → Run σ

/-- Interface `CSRSigner` and its function adapter `CSRSignerFunc`. -/
abbrev CSRSignerFunc (σ : Type) := Option CSRReqMessage → σ → Run σ

/-- Method `(f CSRSignerContextFunc) SignCSRContext(ctx, m)`: calls `f(ctx, m)`. -/
def CSRSignerContextFunc.SignCSRContext {σ : Type} (f : CSRSignerContextFunc σ)
    (ctx : Context) (m : Option CSRReqMessage) (s : σ) : Run σ :=
  f ctx m s

/-- The interface call `next.SignCSRContext(ctx, m)`: the call is recorded in
front of what the callee records. -/
def CSRSignerContext.SignCSRContext {σ : Type} (next : CSRSignerContextFunc σ)
    (ctx : Context) (m : Option CSRReqMessage) (s : σ) : Run σ :=
  let r := CSRSignerContextFunc.SignCSRContext next ctx m s
  { out := r.out, st := r.st, calls := Event.SignCSRContext ctx m :: r.calls }

/-- A terminal signer: it acts on the collaborator state and makes no further
recorded call. -/
def terminalSigner {σ : Type}
    (f : Context → Option CSRReqMessage → σ → Outcome × σ) : CSRSignerContextFunc σ :=
  fun ctx m s => { out := (f ctx m s).1, st := (f ctx m s).2, calls := [] }

/-- The same run with the calls `pre`, made earlier, put in front. -/
def Run.after {σ : Type} (pre : List Event) (r : Run σ) : Run σ :=
  { out := r.out, st := r.st, calls := pre ++ r.calls }

/-- A run that stops with a returned error and no certificate. -/
def Run.fail {σ : Type} (e : GoError) (s : σ) (calls : List Event) : Run σ :=
  { out := Outcome.ret none (some e), st := s, calls := calls }

/-- Whether an event is a call of a signer. -/
def Event.isSign : Event → Bool
  | Event.SignCSRContext _ _ => true
  | Event.SignCSR _ => true
  | _ => false

/-- Number of signer calls in a list of events. -/
def signCalls (t : List Event) : Nat := (t.filter Event.isSign).length

/-- Whether an event is a POST. -/
def Event.isPost : Event → Bool
  | Event.Post _ _ _ => true
  | _ => false

/-- Number of POSTs in a list of events. -/
def postCalls (t : List Event) : Nat := (t.filter Event.isPost).length

/-! ## Library functions used by the code -/

/-- Go `subtle.ConstantTimeByteEq(x, y uint8) int`, that is
`int((uint32(x^y) - 1) >> 31)` with 32-bit wrap-around. -/
def subtle_ConstantTimeByteEq (x y : Nat) : Nat :=
  ((((x ^^^ y) % 2 ^ 32) + (2 ^ 32 - 1)) % 2 ^ 32) >>> 31

/-- Go `subtle.ConstantTimeCompare(x, y []byte) int`: 0 on a length mismatch,
otherwise the bytewise differences are or-ed into one byte `v`, and the result
is `ConstantTimeByteEq(v, 0)`. -/
def subtle_ConstantTimeCompare (x y : List Byte) : Nat :=
  if x.length ≠ y.length then 0
  else
    let v := (List.zip x y).foldl (fun v p => (v ||| (p.1.val ^^^ p.2.val)) % 256) 0
    subtle_ConstantTimeByteEq v 0

/-- Go `subtle.ConstantTimeCompare` once more, instrumented: beside the result
it returns the number of passes through the loop, that is the number of byte
pairs read and combined.  The early `return 0` on a length mismatch makes no
pass. -/
def subtle_ConstantTimeCompare_counted (x y : List Byte) : Nat × Nat :=
  if x.length ≠ y.length then (0, 0)
  else
    let a := (List.zip x y).foldl
      (fun a p => ((a.1 ||| (p.1.val ^^^ p.2.val)) % 256, a.2 + 1)) (0, 0)
    (subtle_ConstantTimeByteEq a.1 0, a.2)

/-- Go `strings.Join(elems, sep)`: nothing for no element, the element itself
for one, otherwise the first element followed by `sep` and the next element
for each further one. -/
def strings_Join (elems : List GoString) (sep : GoString) : GoString :=
  match elems with
  | [] => []
  | [e] => e
  | e :: es => es.foldl (fun b x => b ++ sep ++ x) e

/-- The kinds of value `encoding/json` can meet in a struct field here: a
string, or a kind it cannot encode. -/
inductive GoValue where
  | String (s : GoString)
  | Chan
  | Func
  deriving DecidableEq, Repr

/-- The fields of `DeviceChallenge` as reflection presents them: JSON key of
the struct tag and field value, in declaration order. -/
def DeviceChallenge.fields (v : DeviceChallenge) : List (String × GoValue) :=
  [("device_id", GoValue.String v.DeviceId), ("challenge", GoValue.String v.Challenge)]

/-- JSON encoding of one field value; `none` for an unsupported kind.  `quote`
is the string encoder of `encoding/json` (quotes and escapes). -/
def json_encodeValue (quote : GoString → List Byte) : GoValue → Option (List Byte)
  | GoValue.String s => some (quote s)
  | GoValue.Chan => none
  | GoValue.Func => none

/-- JSON encoding of the members of an object, separated by commas. -/
def json_encodeFields (quote : GoString → List Byte) :
    List (String × GoValue) → Option (List Byte)
  | [] => some []
  | (k, v) :: rest =>
    match json_encodeValue quote v, json_encodeFields quote rest with
    | some b, some bs =>
      some (str "\"" ++ str k ++ str "\":" ++ b ++ (if rest.isEmpty then [] else str ",") ++ bs)
    | _, _ => none

/-- Go `json.Marshal` of a struct value given by its fields: the object in
braces, or an error for an unsupported field kind. -/
def json_Marshal (quote : GoString → List Byte) (fields : List (String × GoValue)) :
    List Byte × Option GoError :=
  match json_encodeFields quote fields with
  | some b => (str "\x7b" ++ b ++ str "\x7d", none)
  | none => ([], some (errors_New "json: unsupported type"))

/-- Go `json.Marshal(deviceChallenge)`: the model above at type `DeviceChallenge`. -/
def marshalDeviceChallenge (quote : GoString → List Byte) (v : DeviceChallenge) :
    List Byte × Option GoError :=
  json_Marshal quote v.fields

/-- The HTTP side of the program: `http.Post(url, contentType, body)` and the
`Close` of a response body, acting on the collaborator state. -/
structure HTTPClient (σ : Type) where
  Post : GoString → GoString → List Byte → σ → (Option Response × Option GoError) × σ
  Close : Response → σ → σ

/-! ## Package `challenge` -/

namespace challenge

/-- `challenge.Middleware(store, next)`: verifies the challenge with the
store, then forwards to `next`. -/
def Middleware {σ : Type} (store : Validator σ) (next : CSRSignerContextFunc σ) :
    CSRSignerContextFunc σ :=
  fun ctx m s =>
    match m with
    | none => { out := Outcome.panic, st := s, calls := [] }
    | some msg =>
      let r := store msg.ChallengePassword s
      let valid := r.1.1
      let err := r.1.2
      let called := [Event.HasChallenge msg.ChallengePassword]
      match err with
      | some e => Run.fail e r.2 called
      | none =>
        if !valid then
          Run.fail (errors_New "invalid challenge") r.2 called
        else
          (CSRSignerContext.SignCSRContext next ctx m r.2).after called

end challenge

/-! ## Package `scepserver` -/

namespace scepserver

/-- Method `(f CSRSignerFunc) SignCSR(m)`: calls `f(m)`. -/
def CSRSignerFunc.SignCSR {σ : Type} (f : CSRSignerFunc σ)
    (m : Option CSRReqMessage) (s : σ) : Run σ :=
  f m s

/-- The interface call `next.SignCSR(m)`, recorded in front of what the callee
records. -/
def CSRSigner.SignCSR {σ : Type} (next : CSRSignerFunc σ)
    (m : Option CSRReqMessage) (s : σ) : Run σ :=
  (CSRSignerFunc.SignCSR next m s).after [Event.SignCSR m]

/-- `NopCSRSigner()`: does nothing. -/
def NopCSRSigner {σ : Type} : CSRSignerContextFunc σ :=
  fun _ _ s => { out := Outcome.ret none none, st := s, calls := [] }

/-- `ExternalChallengeMiddleware(url, next)`.  `http` is the HTTP client behind
`http.Post`, `marshal` is `json.Marshal` at type `DeviceChallenge`. -/
def ExternalChallengeMiddleware {σ : Type} (http : HTTPClient σ)
    (marshal : DeviceChallenge → List Byte × Option GoError)
    (url : GoString) (next : CSRSignerContextFunc σ) : CSRSignerContextFunc σ :=
  fun ctx m s =>
    match m with
    | none => { out := Outcome.panic, st := s, calls := [] }
    | some msg =>
    match msg.CSR with
    | none => { out := Outcome.panic, st := s, calls := [] }
    | some csr =>
      let deviceId := strings_Join csr.Subject.OrganizationalUnit (str ", ")
      let deviceChallenge : DeviceChallenge :=
        { DeviceId := deviceId, Challenge := msg.ChallengePassword }
      let j := marshal deviceChallenge
      let jsonData := j.1
      match j.2 with
      | some _ => Run.fail (errors_New "Unable to marshall device challenge") s []
      | none =>
        let p := http.Post url (str "application/json") jsonData s
        let posted := [Event.Post url (str "application/json") jsonData]
        match p.1.2 with
        | some _ => Run.fail (errors_New "Failed to test external challenge") p.2 posted
        | none =>
          match p.1.1 with
          | none => { out := Outcome.panic, st := p.2, calls := posted }
          | some resp =>
            if resp.StatusCode ≥ 200 ∧ resp.StatusCode < 300 then
              let n := CSRSignerContext.SignCSRContext next ctx m p.2
              { out := n.out, st := http.Close resp n.st,
                calls := posted ++ n.calls ++ [Event.BodyClose resp] }
            else
              Run.fail (errors_New "Invalid challenge") (http.Close resp p.2)
                (posted ++ [Event.BodyClose resp])

/-- `StaticChallengeMiddleware(challenge, next)`: wraps next and validates the
challenge from the CSR. -/
def StaticChallengeMiddleware {σ : Type} (challenge : GoString)
    (next : CSRSignerContextFunc σ) : CSRSignerContextFunc σ :=
  let challengeBytes : List Byte := challenge
  fun ctx m s =>
    match m with
    | none => { out := Outcome.panic, st := s, calls := [] }
    | some msg =>
      if subtle_ConstantTimeCompare challengeBytes msg.ChallengePassword ≠ 1 then
        Run.fail (errors_New "invalid challenge") s []
      else
        CSRSignerContext.SignCSRContext next ctx m s

/-- `SignCSRAdapter(next)`: adapts a signer without context to a context
signer. -/
def SignCSRAdapter {σ : Type} (next : CSRSignerFunc σ) : CSRSignerContextFunc σ :=
  fun _ m s => CSRSigner.SignCSR next m s

end scepserver

/-! ## Example collaborators -/

/-- Modelled from the spec: a Challenge Store whose `HasChallenge` checks and
invalidates (no implementation of `Validator` is part of the sources).  The
state is the list of issued, unconsumed tokens; a lookup answers `true`
exactly when the token is pending and removes it. -/
def onceStore : Validator (List GoString) :=
  fun pw s => ((decide (pw ∈ s), none), s.erase pw)

/-- A store whose backing storage is broken: every lookup fails. -/
def brokenStore : Validator (List GoString) :=
  fun _ s => ((false, some (errors_New "storage unavailable")), s)

/-- A certificate used in examples. -/
def demoCert : Certificate := { Raw := [48, 130] }

/-- A terminal signer that always issues `demoCert`. -/
def demoSigner {σ : Type} : CSRSignerContextFunc σ :=
  terminalSigner (fun _ _ s => (Outcome.ret (some demoCert) none, s))

/-- A live context. -/
def background : Context := { Err := none }

/-- A context that has been cancelled. -/
def cancelled : Context := { Err := some (errors_New "context canceled") }

/-- A request with the given organizational units and challenge. -/
def demoRequest (ou : List GoString) (pw : GoString) : CSRReqMessage :=
  { RawDecrypted := []
    CSR := some { Raw := [], Subject := { CommonName := str "device", Organization := [],
                                          OrganizationalUnit := ou } }
    ChallengePassword := pw }

/-- An endpoint that answers every POST with the given status and no body. -/
def statusClient (c : Int) : HTTPClient Unit :=
  { Post := fun _ _ _ s => ((some { StatusCode := c, Body := [] }, none), s)
    Close := fun _ s => s }

/-- An endpoint that refuses the connection. -/
def refusingClient : HTTPClient Unit :=
  { Post := fun _ _ _ s => ((none, some (errors_New "connection refused")), s)
    Close := fun _ s => s }

/-- A string encoder for examples: quotes, no escaping. -/
def plainQuote (s : GoString) : List Byte := str "\"" ++ s ++ str "\""

/-- A terminal signer that counts its invocations in the state. -/
def countingSigner : CSRSignerContextFunc Nat :=
  terminalSigner (fun _ _ n => (Outcome.ret (some demoCert) none, n + 1))

/-! ## Lemmas on the library functions -/

theorem Nat_or_eq_zero_iff (a b : Nat) : a ||| b = 0 ↔ a = 0 ∧ b = 0 := by
  constructor
  · intro h
    constructor
    · apply Nat.eq_of_testBit_eq
      intro i
      have hi := congrArg (fun n => n.testBit i) h
      simp [Nat.testBit_or] at hi
      simp [hi.1]
    · apply Nat.eq_of_testBit_eq
      intro i
      have hi := congrArg (fun n => n.testBit i) h
      simp [Nat.testBit_or] at hi
      simp [hi.2]
  · rintro ⟨rfl, rfl⟩
    simp

/-- On a byte, `ConstantTimeByteEq(v, 0)` is 1 exactly for `v = 0`. -/
theorem subtle_ConstantTimeByteEq_zero (v : Nat) (hv : v < 256) :
    subtle_ConstantTimeByteEq v 0 = 1 ↔ v = 0 := by
  unfold subtle_ConstantTimeByteEq
  simp only [Nat.xor_zero, Nat.shiftRight_eq_div_pow]
  constructor
  · intro h
    by_contra hne
    have hw : (v % 2 ^ 32 + (2 ^ 32 - 1)) % 2 ^ 32 = v - 1 := by omega
    rw [hw] at h
    omega
  · rintro rfl
    norm_num

/-- The accumulator of the comparison loop stays a byte, and ends at 0 exactly
when it started at 0 and every pair of bytes agreed. -/
theorem compareLoop_spec (l : List (Byte × Byte)) (v : Nat) (hv : v < 256) :
    l.foldl (fun v p => (v ||| (p.1.val ^^^ p.2.val)) % 256) v < 256 ∧
    (l.foldl (fun v p => (v ||| (p.1.val ^^^ p.2.val)) % 256) v = 0
      ↔ v = 0 ∧ ∀ p ∈ l, p.1 = p.2) := by
  induction l generalizing v with
  | nil => simp [hv]
  | cons p l ih =>
    have hx : p.1.val ^^^ p.2.val < 2 ^ 8 := Nat.xor_lt_two_pow p.1.isLt p.2.isLt
    have ho : v ||| (p.1.val ^^^ p.2.val) < 2 ^ 8 := Nat.or_lt_two_pow hv hx
    have hm : (v ||| (p.1.val ^^^ p.2.val)) % 256 = v ||| (p.1.val ^^^ p.2.val) :=
      Nat.mod_eq_of_lt ho
    simp only [List.foldl_cons, hm]
    refine ⟨(ih _ ho).1, ?_⟩
    rw [(ih _ ho).2, Nat_or_eq_zero_iff, Nat.xor_eq_zero]
    simp [Fin.val_inj, and_assoc]

theorem zip_pairs_agree_iff (x y : List Byte) (h : x.length = y.length) :
    (∀ p ∈ List.zip x y, p.1 = p.2) ↔ x = y := by
  induction x generalizing y with
  | nil => cases y <;> simp_all
  | cons a x ih =>
    cases y with
    | nil => simp at h
    | cons b y =>
      simp only [List.length_cons, Nat.add_right_cancel_iff] at h
      have hi := ih y h
      simp only [Prod.forall] at hi
      simp [hi]

/-- `ConstantTimeCompare` answers 1 exactly on equal byte sequences. -/
theorem subtle_ConstantTimeCompare_eq_one_iff (x y : List Byte) :
    subtle_ConstantTimeCompare x y = 1 ↔ x = y := by
  unfold subtle_ConstantTimeCompare
  by_cases h : x.length = y.length
  · simp only [h, ne_eq, not_true_eq_false, if_false]
    rw [subtle_ConstantTimeByteEq_zero _ (compareLoop_spec _ 0 (by norm_num)).1,
      (compareLoop_spec _ 0 (by norm_num)).2, zip_pairs_agree_iff x y h]
    simp
  · simp only [ne_eq, h, not_false_eq_true, if_true]
    constructor
    · intro h0
      cases h0
    · intro he
      exact absurd (congrArg List.length he) h

/-- What `StaticChallengeMiddleware` does on a request, by equality of the
presented challenge with the secret. -/
theorem StaticChallengeMiddleware_run {σ : Type} (S : GoString)
    (next : CSRSignerContextFunc σ) (ctx : Context) (msg : CSRReqMessage) (s : σ) :
    scepserver.StaticChallengeMiddleware S next ctx (some msg) s
      = if msg.ChallengePassword = S then
          CSRSignerContext.SignCSRContext next ctx (some msg) s
        else Run.fail (errors_New "invalid challenge") s [] := by
  unfold scepserver.StaticChallengeMiddleware
  by_cases h : msg.ChallengePassword = S
  · have h1 : subtle_ConstantTimeCompare S msg.ChallengePassword = 1 :=
      (subtle_ConstantTimeCompare_eq_one_iff _ _).2 h.symm
    simp [if_pos h, h1]
  · have h1 : subtle_ConstantTimeCompare S msg.ChallengePassword ≠ 1 :=
      fun hc => h ((subtle_ConstantTimeCompare_eq_one_iff _ _).1 hc).symm
    simp [if_neg h, h1]

/-- `strings.Join` puts the separator between consecutive elements. -/
theorem strings_Join_eq_intercalate (elems : List GoString) (sep : GoString) :
    strings_Join elems sep = List.intercalate sep elems := by
  have hfold : ∀ (es : List GoString) (b : GoString),
      es.foldl (fun b x => b ++ sep ++ x) b = b ++ (es.map (fun x => sep ++ x)).flatten := by
    intro es
    induction es with
    | nil => intro b; simp
    | cons x es ih =>
      intro b
      simp only [List.foldl_cons, List.map_cons, List.flatten_cons]
      rw [ih]
      simp [List.append_assoc]
  have hinter : ∀ (e : GoString) (es : List GoString),
      List.intercalate sep (e :: es) = e ++ (es.map (fun x => sep ++ x)).flatten := by
    intro e es
    induction es generalizing e with
    | nil => simp [List.intercalate, List.intersperse]
    | cons x es ih =>
      have hx := ih x
      simp only [List.intercalate] at hx ⊢
      simp [List.intersperse, hx, List.append_assoc]
  cases elems with
  | nil => simp [strings_Join, List.intercalate, List.intersperse]
  | cons e es =>
    cases es with
    | nil => simp [strings_Join, List.intercalate, List.intersperse]
    | cons x es => rw [hinter]; simp only [strings_Join]; rw [hfold]

/-- The `json.Marshal` model never fails on a `DeviceChallenge` and yields the
object with the two tagged members in declaration order. -/
theorem marshalDeviceChallenge_eq (quote : GoString → List Byte) (v : DeviceChallenge) :
    marshalDeviceChallenge quote v
      = (str "\x7b\"device_id\":" ++ quote v.DeviceId ++ str ",\"challenge\":"
          ++ quote v.Challenge ++ str "\x7d", none) := by
  have h1 : str "\x7b" = [123] := by decide
  have h2 : str "\x7d" = [125] := by decide
  have h3 : str "\"" = [34] := by decide
  have h4 : str "\":" = [34, 58] := by decide
  have h5 : str "," = [44] := by decide
  have h6 : str "device_id" = [100, 101, 118, 105, 99, 101, 95, 105, 100] := by decide
  have h7 : str "challenge" = [99, 104, 97, 108, 108, 101, 110, 103, 101] := by decide
  have h8 : str "\x7b\"device_id\":"
      = [123, 34, 100, 101, 118, 105, 99, 101, 95, 105, 100, 34, 58] := by decide
  have h9 : str ",\"challenge\":"
      = [44, 34, 99, 104, 97, 108, 108, 101, 110, 103, 101, 34, 58] := by decide
  simp [marshalDeviceChallenge, json_Marshal, json_encodeFields, json_encodeValue,
    DeviceChallenge.fields, h1, h2, h3, h4, h5, h6, h7, h8, h9]

/-- What `ExternalChallengeMiddleware` does once the payload is serialized, by
the result of the POST. -/
theorem ExternalChallengeMiddleware_run {σ : Type} (http : HTTPClient σ)
    (marshal : DeviceChallenge → List Byte × Option GoError) (url : GoString)
    (next : CSRSignerContextFunc σ) (ctx : Context) (msg : CSRReqMessage)
    (csr : CertificateRequest) (body : List Byte) (s : σ)
    (hc : msg.CSR = some csr)
    (hm : marshal { DeviceId := strings_Join csr.Subject.OrganizationalUnit (str ", "),
                    Challenge := msg.ChallengePassword } = (body, none)) :
    scepserver.ExternalChallengeMiddleware http marshal url next ctx (some msg) s
      = match (http.Post url (str "application/json") body s).1.2 with
        | some _ =>
          Run.fail (errors_New "Failed to test external challenge")
            (http.Post url (str "application/json") body s).2
            [Event.Post url (str "application/json") body]
        | none =>
          match (http.Post url (str "application/json") body s).1.1 with
          | none =>
            { out := Outcome.panic, st := (http.Post url (str "application/json") body s).2,
              calls := [Event.Post url (str "application/json") body] }
          | some resp =>
            if resp.StatusCode ≥ 200 ∧ resp.StatusCode < 300 then
              { out := (CSRSignerContext.SignCSRContext next ctx (some msg)
                          (http.Post url (str "application/json") body s).2).out,
                st := http.Close resp (CSRSignerContext.SignCSRContext next ctx (some msg)
                          (http.Post url (str "application/json") body s).2).st,
                calls := [Event.Post url (str "application/json") body]
                  ++ (CSRSignerContext.SignCSRContext next ctx (some msg)
                          (http.Post url (str "application/json") body s).2).calls
                  ++ [Event.BodyClose resp] }
            else
              Run.fail (errors_New "Invalid challenge")
                (http.Close resp (http.Post url (str "application/json") body s).2)
                ([Event.Post url (str "application/json") body] ++ [Event.BodyClose resp]) := by
  simp only [scepserver.ExternalChallengeMiddleware, hc, hm]

/-! ## The claims -/

/-- C1: when `store.HasChallenge(m.ChallengePassword)` returns `(true, nil)`,
`Middleware(store, next)` applied to `(ctx, m)` is the interface call
`next.SignCSRContext(ctx, m)` made after the lookup, with the same `ctx` and the
same request: it returns exactly the certificate and error that `next` returns
and leaves the state `next` leaves. -/
theorem C1_middleware_valid_forwards {σ : Type} (store : Validator σ)
    (next : CSRSignerContextFunc σ) (ctx : Context) (msg : CSRReqMessage)
    (s s1 : σ) (hv : store msg.ChallengePassword s = ((true, none), s1)) :
    challenge.Middleware store next ctx (some msg) s
        = (CSRSignerContext.SignCSRContext next ctx (some msg) s1).after
            [Event.HasChallenge msg.ChallengePassword]
    ∧ (challenge.Middleware store next ctx (some msg) s).out = (next ctx (some msg) s1).out
    ∧ (challenge.Middleware store next ctx (some msg) s).calls
        = Event.HasChallenge msg.ChallengePassword
            :: Event.SignCSRContext ctx (some msg) :: (next ctx (some msg) s1).calls := by
  simp [challenge.Middleware, hv, CSRSignerContext.SignCSRContext,
    CSRSignerContextFunc.SignCSRContext, Run.after]

/-- Witness of C1: the one-time store holding the presented token. -/
theorem C1_middleware_valid_forwards_witness :
    onceStore (demoRequest [] (str "tok")).ChallengePassword [str "tok"] = ((true, none), [])
    ∧ (challenge.Middleware onceStore demoSigner background
          (some (demoRequest [] (str "tok"))) [str "tok"]).out
        = (demoSigner background (some (demoRequest [] (str "tok"))) ([] : List GoString)).out :=
  ⟨by decide,
   (C1_middleware_valid_forwards onceStore demoSigner background
      (demoRequest [] (str "tok")) [str "tok"] [] (by decide)).2.1⟩

/-- C2: when `store.HasChallenge(m.ChallengePassword)` returns `(false, nil)`,
`Middleware(store, next)` applied to `(ctx, m)` returns a nil certificate with
the error "invalid challenge"; the lookup is the only call it makes, `next` is
not invoked. -/
theorem C2_middleware_invalid_rejects {σ : Type} (store : Validator σ)
    (next : CSRSignerContextFunc σ) (ctx : Context) (msg : CSRReqMessage)
    (s s1 : σ) (hv : store msg.ChallengePassword s = ((false, none), s1)) :
    challenge.Middleware store next ctx (some msg) s
        = { out := Outcome.ret none (some (errors_New "invalid challenge")), st := s1,
            calls := [Event.HasChallenge msg.ChallengePassword] }
    ∧ signCalls (challenge.Middleware store next ctx (some msg) s).calls = 0 := by
  simp [challenge.Middleware, hv, Run.fail, signCalls, Event.isSign]

/-- Witness of C2: the one-time store not holding the presented token. -/
theorem C2_middleware_invalid_rejects_witness :
    onceStore (demoRequest [] (str "tok")).ChallengePassword [str "other"]
        = ((false, none), [str "other"])
    ∧ signCalls (challenge.Middleware onceStore demoSigner background
          (some (demoRequest [] (str "tok"))) [str "other"]).calls = 0 :=
  ⟨by decide,
   (C2_middleware_invalid_rejects onceStore demoSigner background
      (demoRequest [] (str "tok")) [str "other"] [str "other"] (by decide)).2⟩

/-- C3: when `store.HasChallenge(m.ChallengePassword)` returns a non-nil error
`e`, with either boolean, `Middleware(store, next)` applied to `(ctx, m)` returns
a nil certificate and the very error `e`; the lookup is the only call it makes,
`next` is not invoked. -/
theorem C3_middleware_store_error_propagates {σ : Type} (store : Validator σ)
    (next : CSRSignerContextFunc σ) (ctx : Context) (msg : CSRReqMessage)
    (s s1 : σ) (b : Bool) (e : GoError)
    (hv : store msg.ChallengePassword s = ((b, some e), s1)) :
    challenge.Middleware store next ctx (some msg) s
        = { out := Outcome.ret none (some e), st := s1,
            calls := [Event.HasChallenge msg.ChallengePassword] }
    ∧ signCalls (challenge.Middleware store next ctx (some msg) s).calls = 0 := by
  simp [challenge.Middleware, hv, Run.fail, signCalls, Event.isSign]

/-- Witness of C3: a store whose backing storage is unavailable. -/
theorem C3_middleware_store_error_propagates_witness :
    brokenStore (demoRequest [] (str "tok")).ChallengePassword [str "tok"]
        = ((false, some (errors_New "storage unavailable")), [str "tok"])
    ∧ challenge.Middleware brokenStore demoSigner background
          (some (demoRequest [] (str "tok"))) [str "tok"]
        = { out := Outcome.ret none (some (errors_New "storage unavailable")),
            st := [str "tok"],
            calls := [Event.HasChallenge (demoRequest [] (str "tok")).ChallengePassword] } :=
  ⟨by decide,
   (C3_middleware_store_error_propagates brokenStore demoSigner background
      (demoRequest [] (str "tok")) [str "tok"] [str "tok"] false
      (errors_New "storage unavailable") (by decide)).1⟩

/-- C4: `StaticChallengeMiddleware(S, next)` applied to `(ctx, m)` is the
interface call `next.SignCSRContext(ctx, m)`, result returned verbatim, when
`m.ChallengePassword` equals `S` byte for byte, and otherwise returns a nil
certificate with the error "invalid challenge" without any call; so `next` is
called if and only if the two are equal.  With `S = "topsecret"`, the challenge
"topsecret" is signed and the challenge "wrong" is rejected with no signing
call. -/
theorem C4_static_forwards_iff_equal {σ : Type} (S : GoString)
    (next : CSRSignerContextFunc σ) (ctx : Context) (msg : CSRReqMessage) (s : σ) :
    (scepserver.StaticChallengeMiddleware S next ctx (some msg) s
        = if msg.ChallengePassword = S then
            CSRSignerContext.SignCSRContext next ctx (some msg) s
          else { out := Outcome.ret none (some (errors_New "invalid challenge")), st := s,
                 calls := [] })
    ∧ ((scepserver.StaticChallengeMiddleware S next ctx (some msg) s).calls.head?
          = some (Event.SignCSRContext ctx (some msg)) ↔ msg.ChallengePassword = S)
    ∧ (scepserver.StaticChallengeMiddleware (str "topsecret") next ctx
          (some (demoRequest [] (str "topsecret"))) s).out
        = (next ctx (some (demoRequest [] (str "topsecret"))) s).out
    ∧ scepserver.StaticChallengeMiddleware (str "topsecret") next ctx
          (some (demoRequest [] (str "wrong"))) s
        = { out := Outcome.ret none (some (errors_New "invalid challenge")), st := s,
            calls := [] } := by
  have hw : (demoRequest [] (str "wrong")).ChallengePassword ≠ str "topsecret" := by decide
  have ht : (demoRequest [] (str "topsecret")).ChallengePassword = str "topsecret" := rfl
  refine ⟨?_, ?_, ?_, ?_⟩
  · rw [StaticChallengeMiddleware_run]; rfl
  · rw [StaticChallengeMiddleware_run]
    by_cases h : msg.ChallengePassword = S
    · simp [h, CSRSignerContext.SignCSRContext]
    · simp [h, Run.fail]
  · rw [StaticChallengeMiddleware_run, if_pos ht]
    simp [CSRSignerContext.SignCSRContext, CSRSignerContextFunc.SignCSRContext]
  · rw [StaticChallengeMiddleware_run, if_neg hw]; rfl

/-- C5: when the POST completes with a response of status code `c`,
`ExternalChallengeMiddleware(url, next)` applied to `(ctx, m)` returns what the
interface call `next.SignCSRContext(ctx, m)` returns if `200 <= c < 300`, and
otherwise a nil certificate with the error "Invalid challenge", `next` not being
invoked; the returned pair is a function of `c` and of `next`, not of the
response body.  Status 204 is accepted, status 403 is rejected. -/
theorem C5_external_decides_by_status {σ : Type} (http : HTTPClient σ)
    (marshal : DeviceChallenge → List Byte × Option GoError) (url : GoString)
    (next : CSRSignerContextFunc σ) (ctx : Context) (msg : CSRReqMessage)
    (csr : CertificateRequest) (body : List Byte) (resp : Response) (c : Int) (s s1 : σ)
    (hc : msg.CSR = some csr)
    (hm : marshal { DeviceId := strings_Join csr.Subject.OrganizationalUnit (str ", "),
                    Challenge := msg.ChallengePassword } = (body, none))
    (hp : http.Post url (str "application/json") body s = ((some resp, none), s1))
    (hcode : resp.StatusCode = c) :
    (scepserver.ExternalChallengeMiddleware http marshal url next ctx (some msg) s).out
        = (if 200 ≤ c ∧ c < 300 then
            (CSRSignerContext.SignCSRContext next ctx (some msg) s1).out
          else Outcome.ret none (some (errors_New "Invalid challenge")))
    ∧ (scepserver.ExternalChallengeMiddleware http marshal url next ctx (some msg) s).calls
        = (if 200 ≤ c ∧ c < 300 then
            Event.Post url (str "application/json") body
              :: (CSRSignerContext.SignCSRContext next ctx (some msg) s1).calls
              ++ [Event.BodyClose resp]
          else [Event.Post url (str "application/json") body, Event.BodyClose resp])
    ∧ (¬ (200 ≤ c ∧ c < 300) →
        signCalls
          (scepserver.ExternalChallengeMiddleware http marshal url next ctx (some msg) s).calls
          = 0)
    ∧ (scepserver.ExternalChallengeMiddleware (statusClient 204) marshal url demoSigner ctx
          (some msg) ()).out = Outcome.ret (some demoCert) none
    ∧ scepserver.ExternalChallengeMiddleware (statusClient 403) marshal url demoSigner ctx
          (some msg) ()
        = { out := Outcome.ret none (some (errors_New "Invalid challenge")), st := (),
            calls := [Event.Post url (str "application/json") body,
                      Event.BodyClose { StatusCode := 403, Body := [] }] } := by
  subst hcode
  refine ⟨?_, ?_, ?_, ?_, ?_⟩
  · rw [ExternalChallengeMiddleware_run http marshal url next ctx msg csr body s hc hm, hp]
    by_cases h : 200 ≤ resp.StatusCode ∧ resp.StatusCode < 300
    · simp [h]
    · simp [h, Run.fail]
  · rw [ExternalChallengeMiddleware_run http marshal url next ctx msg csr body s hc hm, hp]
    by_cases h : 200 ≤ resp.StatusCode ∧ resp.StatusCode < 300
    · simp [h]
    · simp [h, Run.fail]
  · intro h
    rw [ExternalChallengeMiddleware_run http marshal url next ctx msg csr body s hc hm, hp]
    simp [h, Run.fail, signCalls, Event.isSign]
  · rw [ExternalChallengeMiddleware_run (statusClient 204) marshal url demoSigner ctx msg csr
      body () hc hm]
    simp [statusClient, CSRSignerContext.SignCSRContext, CSRSignerContextFunc.SignCSRContext,
      demoSigner, terminalSigner]
  · rw [ExternalChallengeMiddleware_run (statusClient 403) marshal url demoSigner ctx msg csr
      body () hc hm]
    simp [statusClient, Run.fail]

/-- Witness of C5: an endpoint answering 204 to the payload of a request with
two organizational units. -/
theorem C5_external_decides_by_status_witness :
    (demoRequest [str "ou1", str "ou2"] (str "pw")).CSR
        = some { Raw := [], Subject := { CommonName := str "device", Organization := [],
                                         OrganizationalUnit := [str "ou1", str "ou2"] } }
    ∧ (scepserver.ExternalChallengeMiddleware (statusClient 204)
          (marshalDeviceChallenge plainQuote) (str "https://ra.example/check") demoSigner
          background (some (demoRequest [str "ou1", str "ou2"] (str "pw"))) ()).out
        = (if (200 : Int) ≤ 204 ∧ (204 : Int) < 300 then
            (CSRSignerContext.SignCSRContext demoSigner background
              (some (demoRequest [str "ou1", str "ou2"] (str "pw"))) ()).out
          else Outcome.ret none (some (errors_New "Invalid challenge"))) :=
  ⟨rfl,
   (C5_external_decides_by_status (statusClient 204) (marshalDeviceChallenge plainQuote)
      (str "https://ra.example/check") demoSigner background
      (demoRequest [str "ou1", str "ou2"] (str "pw"))
      { Raw := [], Subject := { CommonName := str "device", Organization := [],
                                OrganizationalUnit := [str "ou1", str "ou2"] } }
      (str "\x7b\"device_id\":\"ou1, ou2\",\"challenge\":\"pw\"\x7d")
      { StatusCode := 204, Body := [] } 204 () () rfl (by decide) rfl rfl).1⟩

/-- C6: when the POST fails at the transport level, or when the payload cannot
be serialized, `ExternalChallengeMiddleware(url, next)` applied to `(ctx, m)`
returns a nil certificate and a non-nil error and does not invoke `next`: after
a transport failure the POST is the only call made, after a serialization
failure no call is made at all. -/
theorem C6_external_fails_closed {σ : Type} (http : HTTPClient σ)
    (marshal : DeviceChallenge → List Byte × Option GoError) (url : GoString)
    (next : CSRSignerContextFunc σ) (ctx : Context) (msg : CSRReqMessage)
    (csr : CertificateRequest) (s : σ) (hc : msg.CSR = some csr) :
    (∀ (body : List Byte) (r : Option Response) (e : GoError) (s1 : σ),
        marshal { DeviceId := strings_Join csr.Subject.OrganizationalUnit (str ", "),
                  Challenge := msg.ChallengePassword } = (body, none) →
        http.Post url (str "application/json") body s = ((r, some e), s1) →
        scepserver.ExternalChallengeMiddleware http marshal url next ctx (some msg) s
          = { out := Outcome.ret none (some (errors_New "Failed to test external challenge")),
              st := s1, calls := [Event.Post url (str "application/json") body] })
    ∧ (∀ (b : List Byte) (e : GoError),
        marshal { DeviceId := strings_Join csr.Subject.OrganizationalUnit (str ", "),
                  Challenge := msg.ChallengePassword } = (b, some e) →
        scepserver.ExternalChallengeMiddleware http marshal url next ctx (some msg) s
          = { out := Outcome.ret none (some (errors_New "Unable to marshall device challenge")),
              st := s, calls := [] }) := by
  constructor
  · intro body r e s1 hm hp
    rw [ExternalChallengeMiddleware_run http marshal url next ctx msg csr body s hc hm, hp]
    rfl
  · intro b e hm
    simp [scepserver.ExternalChallengeMiddleware, hc, hm, Run.fail]

/-- Witness of C6: an endpoint that refuses the connection. -/
theorem C6_external_fails_closed_witness :
    (demoRequest [str "ou1"] (str "pw")).CSR
        = some { Raw := [], Subject := { CommonName := str "device", Organization := [],
                                         OrganizationalUnit := [str "ou1"] } }
    ∧ scepserver.ExternalChallengeMiddleware refusingClient
          (marshalDeviceChallenge plainQuote) (str "https://ra.example/check") demoSigner
          background (some (demoRequest [str "ou1"] (str "pw"))) ()
        = { out := Outcome.ret none (some (errors_New "Failed to test external challenge")),
            st := (),
            calls := [Event.Post (str "https://ra.example/check") (str "application/json")
                        (str "\x7b\"device_id\":\"ou1\",\"challenge\":\"pw\"\x7d")] } :=
  ⟨rfl,
   (C6_external_fails_closed refusingClient (marshalDeviceChallenge plainQuote)
      (str "https://ra.example/check") demoSigner background
      (demoRequest [str "ou1"] (str "pw"))
      { Raw := [], Subject := { CommonName := str "device", Organization := [],
                                OrganizationalUnit := [str "ou1"] } } () rfl).1
      (str "\x7b\"device_id\":\"ou1\",\"challenge\":\"pw\"\x7d") none
      (errors_New "connection refused") () (by decide) rfl⟩

/-- C7: the first call `ExternalChallengeMiddleware` makes is the POST to the
configured url, content type `application/json`, whose body is the JSON object
with exactly the members `device_id`, the elements of
`m.CSR.Subject.OrganizationalUnit` in order joined with ", ", and `challenge`,
the value of `m.ChallengePassword`.  The sequence `["ou1","ou2"]` gives the
device id "ou1, ou2", a single element gives that element, the empty sequence
gives the empty string. -/
theorem C7_external_payload {σ : Type} (http : HTTPClient σ)
    (quote : GoString → List Byte) (url : GoString)
    (next : CSRSignerContextFunc σ) (ctx : Context) (msg : CSRReqMessage)
    (csr : CertificateRequest) (s : σ) (hc : msg.CSR = some csr) :
    (scepserver.ExternalChallengeMiddleware http (marshalDeviceChallenge quote) url next ctx
        (some msg) s).calls.head?
      = some (Event.Post url (str "application/json")
          (str "\x7b\"device_id\":"
            ++ quote (List.intercalate (str ", ") csr.Subject.OrganizationalUnit)
            ++ str ",\"challenge\":" ++ quote msg.ChallengePassword ++ str "\x7d"))
    ∧ strings_Join csr.Subject.OrganizationalUnit (str ", ")
        = List.intercalate (str ", ") csr.Subject.OrganizationalUnit
    ∧ strings_Join [str "ou1", str "ou2"] (str ", ") = str "ou1, ou2"
    ∧ (∀ e : GoString, strings_Join [e] (str ", ") = e)
    ∧ strings_Join [] (str ", ") = str "" := by
  refine ⟨?_, strings_Join_eq_intercalate _ _, by decide, fun e => rfl, by decide⟩
  rw [ExternalChallengeMiddleware_run http (marshalDeviceChallenge quote) url next ctx msg csr
    _ s hc (marshalDeviceChallenge_eq quote _)]
  simp only [strings_Join_eq_intercalate]
  rcases hp : http.Post url (str "application/json")
      (str "\x7b\"device_id\":"
        ++ quote (List.intercalate (str ", ") csr.Subject.OrganizationalUnit)
        ++ str ",\"challenge\":" ++ quote msg.ChallengePassword ++ str "\x7d") s
    with ⟨⟨r, e⟩, s1⟩
  cases e with
  | some e => simp [Run.fail]
  | none =>
    cases r with
    | none => simp
    | some resp =>
      by_cases h : 200 ≤ resp.StatusCode ∧ resp.StatusCode < 300
      · simp [h]
      · simp [h, Run.fail]

/-- Witness of C7: the request with units "ou1", "ou2" and challenge "pw" sent
to an endpoint answering 204. -/
theorem C7_external_payload_witness :
    (demoRequest [str "ou1", str "ou2"] (str "pw")).CSR
        = some { Raw := [], Subject := { CommonName := str "device", Organization := [],
                                         OrganizationalUnit := [str "ou1", str "ou2"] } }
    ∧ (scepserver.ExternalChallengeMiddleware (statusClient 204)
          (marshalDeviceChallenge plainQuote) (str "https://ra.example/check") demoSigner
          background (some (demoRequest [str "ou1", str "ou2"] (str "pw"))) ()).calls.head?
        = some (Event.Post (str "https://ra.example/check") (str "application/json")
            (str "\x7b\"device_id\":\"ou1, ou2\",\"challenge\":\"pw\"\x7d")) :=
  ⟨rfl,
   (C7_external_payload (statusClient 204) plainQuote (str "https://ra.example/check")
      demoSigner background (demoRequest [str "ou1", str "ou2"] (str "pw"))
      { Raw := [], Subject := { CommonName := str "device", Organization := [],
                                OrganizationalUnit := [str "ou1", str "ou2"] } } () rfl).1.trans
     (by decide)⟩

/-- C8, the claim as stated fails: with a context that is already cancelled and
an endpoint answering 204, `ExternalChallengeMiddleware` issues the POST, invokes
`next` and returns its certificate with a nil error; with an endpoint answering
403 the result under the cancelled context is the very result under a live one,
the error "Invalid challenge". -/
theorem C8_cancelled_context_counterexample :
    cancelled.Err ≠ none
    ∧ (scepserver.ExternalChallengeMiddleware (statusClient 204)
          (marshalDeviceChallenge plainQuote) (str "https://ra.example/check") demoSigner
          cancelled (some (demoRequest [str "ou1"] (str "pw"))) ()).out
        = Outcome.ret (some demoCert) none
    ∧ signCalls (scepserver.ExternalChallengeMiddleware (statusClient 204)
          (marshalDeviceChallenge plainQuote) (str "https://ra.example/check") demoSigner
          cancelled (some (demoRequest [str "ou1"] (str "pw"))) ()).calls = 1
    ∧ (scepserver.ExternalChallengeMiddleware (statusClient 403)
          (marshalDeviceChallenge plainQuote) (str "https://ra.example/check") demoSigner
          cancelled (some (demoRequest [str "ou1"] (str "pw"))) ()).out
        = Outcome.ret none (some (errors_New "Invalid challenge"))
    ∧ scepserver.ExternalChallengeMiddleware (statusClient 403)
          (marshalDeviceChallenge plainQuote) (str "https://ra.example/check") demoSigner
          cancelled (some (demoRequest [str "ou1"] (str "pw"))) ()
        = scepserver.ExternalChallengeMiddleware (statusClient 403)
          (marshalDeviceChallenge plainQuote) (str "https://ra.example/check") demoSigner
          background (some (demoRequest [str "ou1"] (str "pw"))) () := by
  decide

/-- C8 as amended: `ExternalChallengeMiddleware` does not apply the caller's
context to its network call.  For every context, cancelled or live, and every
other context, the same POST is the first call; a transport failure or a status
outside 200..299 gives the same run under both contexts (the errors "Failed to
test external challenge" and "Invalid challenge"); on a status in 200..299
`next` is invoked with the caller's context and its result is returned. -/
theorem C8_external_does_not_consult_context {σ : Type} (http : HTTPClient σ)
    (marshal : DeviceChallenge → List Byte × Option GoError) (url : GoString)
    (next : CSRSignerContextFunc σ) (ctx ctx2 : Context) (msg : CSRReqMessage)
    (csr : CertificateRequest) (body : List Byte) (s : σ)
    (hc : msg.CSR = some csr)
    (hm : marshal { DeviceId := strings_Join csr.Subject.OrganizationalUnit (str ", "),
                    Challenge := msg.ChallengePassword } = (body, none)) :
    (scepserver.ExternalChallengeMiddleware http marshal url next ctx (some msg) s).calls.head?
        = some (Event.Post url (str "application/json") body)
    ∧ (∀ (r : Option Response) (e : GoError) (s1 : σ),
        http.Post url (str "application/json") body s = ((r, some e), s1) →
        scepserver.ExternalChallengeMiddleware http marshal url next ctx (some msg) s
            = scepserver.ExternalChallengeMiddleware http marshal url next ctx2 (some msg) s
        ∧ (scepserver.ExternalChallengeMiddleware http marshal url next ctx (some msg) s).out
            = Outcome.ret none (some (errors_New "Failed to test external challenge")))
    ∧ (∀ (resp : Response) (s1 : σ),
        http.Post url (str "application/json") body s = ((some resp, none), s1) →
        ¬ (200 ≤ resp.StatusCode ∧ resp.StatusCode < 300) →
        scepserver.ExternalChallengeMiddleware http marshal url next ctx (some msg) s
            = scepserver.ExternalChallengeMiddleware http marshal url next ctx2 (some msg) s
        ∧ (scepserver.ExternalChallengeMiddleware http marshal url next ctx (some msg) s).out
            = Outcome.ret none (some (errors_New "Invalid challenge")))
    ∧ (∀ (resp : Response) (s1 : σ),
        http.Post url (str "application/json") body s = ((some resp, none), s1) →
        200 ≤ resp.StatusCode ∧ resp.StatusCode < 300 →
        (scepserver.ExternalChallengeMiddleware http marshal url next ctx (some msg) s).out
            = (next ctx (some msg) s1).out
        ∧ (scepserver.ExternalChallengeMiddleware http marshal url next ctx (some msg) s).calls
            = Event.Post url (str "application/json") body
                :: Event.SignCSRContext ctx (some msg)
                :: (next ctx (some msg) s1).calls ++ [Event.BodyClose resp]) := by
  refine ⟨?_, ?_, ?_, ?_⟩
  · rw [ExternalChallengeMiddleware_run http marshal url next ctx msg csr body s hc hm]
    rcases hp : http.Post url (str "application/json") body s with ⟨⟨r, e⟩, s1⟩
    cases e with
    | some e => simp [Run.fail]
    | none =>
      cases r with
      | none => simp
      | some resp =>
        by_cases h : 200 ≤ resp.StatusCode ∧ resp.StatusCode < 300
        · simp [h]
        · simp [h, Run.fail]
  · intro r e s1 hp
    rw [ExternalChallengeMiddleware_run http marshal url next ctx msg csr body s hc hm,
      ExternalChallengeMiddleware_run http marshal url next ctx2 msg csr body s hc hm, hp]
    simp [Run.fail]
  · intro resp s1 hp h
    rw [ExternalChallengeMiddleware_run http marshal url next ctx msg csr body s hc hm,
      ExternalChallengeMiddleware_run http marshal url next ctx2 msg csr body s hc hm, hp]
    simp [h, Run.fail]
  · intro resp s1 hp h
    rw [ExternalChallengeMiddleware_run http marshal url next ctx msg csr body s hc hm, hp]
    simp [h, CSRSignerContext.SignCSRContext, CSRSignerContextFunc.SignCSRContext]

/-- Witness of C8 as amended: the cancelled context against the live one. -/
theorem C8_external_does_not_consult_context_witness :
    (demoRequest [str "ou1"] (str "pw")).CSR
        = some { Raw := [], Subject := { CommonName := str "device", Organization := [],
                                         OrganizationalUnit := [str "ou1"] } }
    ∧ (scepserver.ExternalChallengeMiddleware (statusClient 204)
          (marshalDeviceChallenge plainQuote) (str "https://ra.example/check") demoSigner
          cancelled (some (demoRequest [str "ou1"] (str "pw"))) ()).calls.head?
        = some (Event.Post (str "https://ra.example/check") (str "application/json")
            (str "\x7b\"device_id\":\"ou1\",\"challenge\":\"pw\"\x7d")) :=
  ⟨rfl,
   (C8_external_does_not_consult_context (statusClient 204)
      (marshalDeviceChallenge plainQuote) (str "https://ra.example/check") demoSigner
      cancelled background (demoRequest [str "ou1"] (str "pw"))
      { Raw := [], Subject := { CommonName := str "device", Organization := [],
                                OrganizationalUnit := [str "ou1"] } }
      (str "\x7b\"device_id\":\"ou1\",\"challenge\":\"pw\"\x7d") () rfl (by decide)).1⟩

/-- C9, the claim as stated fails: with the empty string configured as secret,
a request with an empty challenge is forwarded to `next` and signed. -/
theorem C9_empty_secret_counterexample :
    (demoRequest [] (str "")).ChallengePassword = []
    ∧ scepserver.StaticChallengeMiddleware (str "") demoSigner background
          (some (demoRequest [] (str ""))) ()
        = { out := Outcome.ret (some demoCert) none, st := (),
            calls := [Event.SignCSRContext background (some (demoRequest [] (str "")))] }
    ∧ signCalls (scepserver.StaticChallengeMiddleware (str "") demoSigner background
          (some (demoRequest [] (str ""))) ()).calls = 1 := by
  decide

/-- C9 as amended: for every non-empty configured secret `S`,
`StaticChallengeMiddleware(S, next)` applied to a request whose
`ChallengePassword` is the empty string returns a nil certificate with the error
"invalid challenge" and makes no call, so `next` is not invoked. -/
theorem C9_empty_challenge_rejected {σ : Type} (S : GoString)
    (next : CSRSignerContextFunc σ) (ctx : Context) (msg : CSRReqMessage) (s : σ)
    (hS : S ≠ []) (hpw : msg.ChallengePassword = []) :
    scepserver.StaticChallengeMiddleware S next ctx (some msg) s
        = { out := Outcome.ret none (some (errors_New "invalid challenge")), st := s,
            calls := [] }
    ∧ signCalls (scepserver.StaticChallengeMiddleware S next ctx (some msg) s).calls = 0 := by
  have hne : msg.ChallengePassword ≠ S := by
    rw [hpw]
    exact fun h => hS h.symm
  rw [StaticChallengeMiddleware_run, if_neg hne]
  exact ⟨rfl, rfl⟩

/-- Witness of C9 as amended: secret "topsecret", empty challenge. -/
theorem C9_empty_challenge_rejected_witness :
    str "topsecret" ≠ [] ∧ (demoRequest [] (str "")).ChallengePassword = []
    ∧ scepserver.StaticChallengeMiddleware (str "topsecret") demoSigner background
          (some (demoRequest [] (str ""))) ()
        = { out := Outcome.ret none (some (errors_New "invalid challenge")), st := (),
            calls := [] } :=
  ⟨by decide, by decide,
   (C9_empty_challenge_rejected (str "topsecret") demoSigner background
      (demoRequest [] (str "")) () (by decide) (by decide)).1⟩

/-- C10: for a store that answers `(true, nil)` to the first lookup of a token
`t` and `(false, nil)` to the later lookup of `t`, two invocations of
`Middleware(store, next)` in sequence with requests carrying `t` behave thus: the
first is forwarded to `next` and returns its result, the second returns the error
"invalid challenge" without invoking `next`.  Every invocation starts with one
call of `HasChallenge`, with `m.ChallengePassword`, and whatever follows it is
the call of `next`, so the middleware itself looks a token up once. -/
theorem C10_token_consumed_once {σ : Type} (store : Validator σ)
    (next : CSRSignerContextFunc σ) (ctx1 ctx2 : Context) (m1 m2 : CSRReqMessage)
    (t : GoString) (s0 s1 s2 : σ)
    (h1 : m1.ChallengePassword = t) (h2 : m2.ChallengePassword = t)
    (hfirst : store t s0 = ((true, none), s1))
    (hlater : store t (next ctx1 (some m1) s1).st = ((false, none), s2)) :
    challenge.Middleware store next ctx1 (some m1) s0
        = (CSRSignerContext.SignCSRContext next ctx1 (some m1) s1).after [Event.HasChallenge t]
    ∧ (challenge.Middleware store next ctx1 (some m1) s0).out = (next ctx1 (some m1) s1).out
    ∧ challenge.Middleware store next ctx2 (some m2)
          (challenge.Middleware store next ctx1 (some m1) s0).st
        = { out := Outcome.ret none (some (errors_New "invalid challenge")), st := s2,
            calls := [Event.HasChallenge t] }
    ∧ signCalls (challenge.Middleware store next ctx2 (some m2)
          (challenge.Middleware store next ctx1 (some m1) s0).st).calls = 0
    ∧ (∀ (ctx : Context) (m : CSRReqMessage) (s : σ),
        (challenge.Middleware store next ctx (some m) s).calls
            = [Event.HasChallenge m.ChallengePassword]
        ∨ (challenge.Middleware store next ctx (some m) s).calls
            = Event.HasChallenge m.ChallengePassword
                :: (CSRSignerContext.SignCSRContext next ctx (some m)
                      (store m.ChallengePassword s).2).calls) := by
  subst h1
  have hst : (challenge.Middleware store next ctx1 (some m1) s0).st
      = (next ctx1 (some m1) s1).st := by
    simp [challenge.Middleware, hfirst, CSRSignerContext.SignCSRContext,
      CSRSignerContextFunc.SignCSRContext, Run.after]
  refine ⟨?_, ?_, ?_, ?_, ?_⟩
  · simp [challenge.Middleware, hfirst]
  · simp [challenge.Middleware, hfirst, CSRSignerContext.SignCSRContext,
      CSRSignerContextFunc.SignCSRContext, Run.after]
  · rw [hst]
    simp [challenge.Middleware, h2, hlater, Run.fail]
  · rw [hst]
    simp [challenge.Middleware, h2, hlater, Run.fail, signCalls, Event.isSign]
  · intro ctx m s
    rcases hr : store m.ChallengePassword s with ⟨⟨valid, err⟩, s3⟩
    cases err with
    | some e => left; simp [challenge.Middleware, hr, Run.fail]
    | none =>
      cases valid with
      | false => left; simp [challenge.Middleware, hr, Run.fail]
      | true => right; simp [challenge.Middleware, hr, Run.after]

/-- Witness of C10: the one-time store with one issued token, presented
twice. -/
theorem C10_token_consumed_once_witness :
    onceStore (str "tok") [str "tok"] = ((true, none), [])
    ∧ onceStore (str "tok")
          (demoSigner background (some (demoRequest [] (str "tok"))) ([] : List GoString)).st
        = ((false, none), [])
    ∧ challenge.Middleware onceStore demoSigner background (some (demoRequest [] (str "tok")))
          (challenge.Middleware onceStore demoSigner background
            (some (demoRequest [] (str "tok"))) [str "tok"]).st
        = { out := Outcome.ret none (some (errors_New "invalid challenge")), st := [],
            calls := [Event.HasChallenge (str "tok")] } :=
  ⟨by decide, by decide,
   (C10_token_consumed_once onceStore demoSigner background background
      (demoRequest [] (str "tok")) (demoRequest [] (str "tok")) (str "tok")
      [str "tok"] [] [] rfl rfl (by decide) (by decide)).2.2.1⟩

/-- C11: middlewares stack as a chain of responsibility.  For two static links,
`StaticChallengeMiddleware(S1, StaticChallengeMiddleware(S2, N))` applied to
`(ctx, m)` calls `N` and returns its result verbatim when `m.ChallengePassword`
equals `S1` and `S2`; when the outer check fails no call is made at all, neither
of the inner link nor of `N`; when only the inner check fails the call of the
inner link is the only call.  With a terminal `N` the two signer calls (inner
link, then `N`) happen if and only if both checks pass, and a signer counting
its invocations counts one for the secrets "a", "a" and the challenge "a" and
none when either secret is "b".  The same with the
store-backed `Middleware` as inner or as outer link: the inner validator and
`N` are reached only through the call the outer link makes after its own check
has succeeded. -/
theorem C11_chain_of_responsibility {σ : Type} (S1 S2 : GoString)
    (store store2 : Validator σ) (N : CSRSignerContextFunc σ) (ctx : Context)
    (msg : CSRReqMessage) (s : σ) :
    (scepserver.StaticChallengeMiddleware S1 (scepserver.StaticChallengeMiddleware S2 N) ctx
        (some msg) s
      = if msg.ChallengePassword = S1 then
          if msg.ChallengePassword = S2 then
            { out := (N ctx (some msg) s).out, st := (N ctx (some msg) s).st,
              calls := Event.SignCSRContext ctx (some msg)
                :: Event.SignCSRContext ctx (some msg) :: (N ctx (some msg) s).calls }
          else
            { out := Outcome.ret none (some (errors_New "invalid challenge")), st := s,
              calls := [Event.SignCSRContext ctx (some msg)] }
        else
          { out := Outcome.ret none (some (errors_New "invalid challenge")), st := s,
            calls := [] })
    ∧ (∀ f : Context → Option CSRReqMessage → σ → Outcome × σ,
        signCalls (scepserver.StaticChallengeMiddleware S1
            (scepserver.StaticChallengeMiddleware S2 (terminalSigner f)) ctx (some msg) s).calls
          = 2
        ↔ msg.ChallengePassword = S1 ∧ msg.ChallengePassword = S2)
    ∧ (scepserver.StaticChallengeMiddleware (str "a")
          (scepserver.StaticChallengeMiddleware (str "a") countingSigner) ctx
          (some (demoRequest [] (str "a"))) 0).st = 1
    ∧ (scepserver.StaticChallengeMiddleware (str "a")
          (scepserver.StaticChallengeMiddleware (str "b") countingSigner) ctx
          (some (demoRequest [] (str "a"))) 0).st = 0
    ∧ (scepserver.StaticChallengeMiddleware (str "b")
          (scepserver.StaticChallengeMiddleware (str "a") countingSigner) ctx
          (some (demoRequest [] (str "a"))) 0).st = 0
    ∧ (scepserver.StaticChallengeMiddleware S1 (challenge.Middleware store N) ctx (some msg) s
      = if msg.ChallengePassword = S1 then
          CSRSignerContext.SignCSRContext (challenge.Middleware store N) ctx (some msg) s
        else
          { out := Outcome.ret none (some (errors_New "invalid challenge")), st := s,
            calls := [] })
    ∧ (challenge.Middleware store (scepserver.StaticChallengeMiddleware S2 N) ctx (some msg) s
      = if (store msg.ChallengePassword s).1 = (true, none) then
          if msg.ChallengePassword = S2 then
            { out := (N ctx (some msg) (store msg.ChallengePassword s).2).out,
              st := (N ctx (some msg) (store msg.ChallengePassword s).2).st,
              calls := Event.HasChallenge msg.ChallengePassword
                :: Event.SignCSRContext ctx (some msg)
                :: Event.SignCSRContext ctx (some msg)
                :: (N ctx (some msg) (store msg.ChallengePassword s).2).calls }
          else
            { out := Outcome.ret none (some (errors_New "invalid challenge")),
              st := (store msg.ChallengePassword s).2,
              calls := [Event.HasChallenge msg.ChallengePassword,
                        Event.SignCSRContext ctx (some msg)] }
        else
          { out := Outcome.ret none
              (some ((store msg.ChallengePassword s).1.2.getD (errors_New "invalid challenge"))),
            st := (store msg.ChallengePassword s).2,
            calls := [Event.HasChallenge msg.ChallengePassword] })
    ∧ (challenge.Middleware store (challenge.Middleware store2 N) ctx (some msg) s
      = if (store msg.ChallengePassword s).1 = (true, none) then
          (CSRSignerContext.SignCSRContext (challenge.Middleware store2 N) ctx (some msg)
            (store msg.ChallengePassword s).2).after [Event.HasChallenge msg.ChallengePassword]
        else
          { out := Outcome.ret none
              (some ((store msg.ChallengePassword s).1.2.getD (errors_New "invalid challenge"))),
            st := (store msg.ChallengePassword s).2,
            calls := [Event.HasChallenge msg.ChallengePassword] }) := by
  have hmid : ∀ next : CSRSignerContextFunc σ,
      challenge.Middleware store next ctx (some msg) s
        = if (store msg.ChallengePassword s).1 = (true, none) then
            (CSRSignerContext.SignCSRContext next ctx (some msg)
              (store msg.ChallengePassword s).2).after [Event.HasChallenge msg.ChallengePassword]
          else
            { out := Outcome.ret none
                (some ((store msg.ChallengePassword s).1.2.getD (errors_New "invalid challenge"))),
              st := (store msg.ChallengePassword s).2,
              calls := [Event.HasChallenge msg.ChallengePassword] } := by
    intro next
    rcases hr : store msg.ChallengePassword s with ⟨⟨valid, err⟩, s1⟩
    cases err with
    | some e => simp [challenge.Middleware, hr, Run.fail]
    | none =>
      cases valid with
      | false => simp [challenge.Middleware, hr, Run.fail]
      | true => simp [challenge.Middleware, hr]
  have hab : (demoRequest [] (str "a")).ChallengePassword ≠ str "b" := by decide
  have haa : (demoRequest [] (str "a")).ChallengePassword = str "a" := rfl
  refine ⟨?_, ?_, ?_, ?_, ?_, ?_, ?_, hmid _⟩
  rotate_left 2
  · rw [StaticChallengeMiddleware_run, if_pos haa]
    simp [CSRSignerContext.SignCSRContext, CSRSignerContextFunc.SignCSRContext,
      StaticChallengeMiddleware_run, haa, countingSigner, terminalSigner]
  · rw [StaticChallengeMiddleware_run, if_pos haa]
    simp [CSRSignerContext.SignCSRContext, CSRSignerContextFunc.SignCSRContext,
      StaticChallengeMiddleware_run, hab, Run.fail]
  · rw [StaticChallengeMiddleware_run, if_neg hab]
    rfl
  rotate_right 2
  · rw [StaticChallengeMiddleware_run]
    by_cases h1 : msg.ChallengePassword = S1
    · by_cases h2 : msg.ChallengePassword = S2
      · simp [h1.symm, h2.symm, CSRSignerContext.SignCSRContext,
          CSRSignerContextFunc.SignCSRContext, StaticChallengeMiddleware_run]
      · simp [h1.symm, h2, CSRSignerContext.SignCSRContext,
          CSRSignerContextFunc.SignCSRContext, StaticChallengeMiddleware_run, Run.fail]
    · simp [h1, Run.fail]
  · intro f
    rw [StaticChallengeMiddleware_run]
    by_cases h1 : msg.ChallengePassword = S1
    · by_cases h2 : msg.ChallengePassword = S2
      · simp [h1.symm, h2.symm, CSRSignerContext.SignCSRContext,
          CSRSignerContextFunc.SignCSRContext, StaticChallengeMiddleware_run, signCalls,
          Event.isSign, terminalSigner]
      · simp [h1.symm, h2, CSRSignerContext.SignCSRContext,
          CSRSignerContextFunc.SignCSRContext, StaticChallengeMiddleware_run, Run.fail,
          signCalls, Event.isSign]
    · simp [h1, Run.fail, signCalls]
  · rw [StaticChallengeMiddleware_run]
    by_cases h1 : msg.ChallengePassword = S1
    · simp [h1]
    · simp [h1, Run.fail]
  · rw [hmid]
    by_cases hv : (store msg.ChallengePassword s).1 = (true, none)
    · by_cases h2 : msg.ChallengePassword = S2
      · simp [hv, h2.symm, CSRSignerContext.SignCSRContext,
          CSRSignerContextFunc.SignCSRContext, StaticChallengeMiddleware_run, Run.after]
      · simp [hv, h2, CSRSignerContext.SignCSRContext,
          CSRSignerContextFunc.SignCSRContext, StaticChallengeMiddleware_run, Run.after,
          Run.fail]
    · simp [hv]

/-- C12: for every context, signer without context and request pointer (nil
included), `SignCSRAdapter(next).SignCSRContext(ctx, m)` is the interface call
`next.SignCSR(m)`: it returns what `next` returns and leaves the state `next`
leaves, its own single call being `SignCSR` with the same `m`, followed by
whatever `next` records.  The run is the same under any two contexts, a cancelled
one included. -/
theorem C12_adapter_forwards_ignoring_context {σ : Type} (next : CSRSignerFunc σ)
    (ctx ctx2 : Context) (m : Option CSRReqMessage) (s : σ) :
    CSRSignerContextFunc.SignCSRContext (scepserver.SignCSRAdapter next) ctx m s
        = scepserver.CSRSigner.SignCSR next m s
    ∧ (CSRSignerContextFunc.SignCSRContext (scepserver.SignCSRAdapter next) ctx m s).out
        = (next m s).out
    ∧ (CSRSignerContextFunc.SignCSRContext (scepserver.SignCSRAdapter next) ctx m s).st
        = (next m s).st
    ∧ (CSRSignerContextFunc.SignCSRContext (scepserver.SignCSRAdapter next) ctx m s).calls
        = Event.SignCSR m :: (next m s).calls
    ∧ signCalls
          (CSRSignerContextFunc.SignCSRContext (scepserver.SignCSRAdapter next) ctx m s).calls
        = 1 + signCalls (next m s).calls
    ∧ CSRSignerContextFunc.SignCSRContext (scepserver.SignCSRAdapter next) ctx m s
        = CSRSignerContextFunc.SignCSRContext (scepserver.SignCSRAdapter next) ctx2 m s
    ∧ CSRSignerContextFunc.SignCSRContext (scepserver.SignCSRAdapter next) cancelled m s
        = CSRSignerContextFunc.SignCSRContext (scepserver.SignCSRAdapter next) background m s := by
  refine ⟨rfl, rfl, rfl, rfl, ?_, rfl, rfl⟩
  simp [CSRSignerContextFunc.SignCSRContext, scepserver.SignCSRAdapter,
    scepserver.CSRSigner.SignCSR, scepserver.CSRSignerFunc.SignCSR, Run.after, signCalls,
    Event.isSign, Nat.add_comm]

/-- C13: `NopCSRSigner()` applied to any context and any request pointer, nil
included, returns a nil certificate and a nil error, makes no call and leaves
the state as it was.  A middleware wrapping it therefore returns `(nil, nil)`
exactly when its own check succeeds and a non-nil error otherwise: the static
one by equality with the secret, the store-backed one by the answer
`(true, nil)` of the store, the external one by a response status in 200..299. -/
theorem C13_nop_signer {σ : Type} (S : GoString) (store : Validator σ)
    (http : HTTPClient σ) (quote : GoString → List Byte) (url : GoString)
    (ctx : Context) (m : Option CSRReqMessage) (msg : CSRReqMessage) (s : σ) :
    scepserver.NopCSRSigner ctx m s = { out := Outcome.ret none none, st := s, calls := [] }
    ∧ scepserver.NopCSRSigner ctx none s
        = { out := Outcome.ret none none, st := s, calls := [] }
    ∧ (scepserver.StaticChallengeMiddleware S scepserver.NopCSRSigner ctx (some msg) s).out
        = (if msg.ChallengePassword = S then Outcome.ret none none
          else Outcome.ret none (some (errors_New "invalid challenge")))
    ∧ (challenge.Middleware store scepserver.NopCSRSigner ctx (some msg) s).out
        = (if (store msg.ChallengePassword s).1 = (true, none) then Outcome.ret none none
          else Outcome.ret none
            (some ((store msg.ChallengePassword s).1.2.getD (errors_New "invalid challenge"))))
    ∧ (∀ (csr : CertificateRequest) (body : List Byte), msg.CSR = some csr →
        marshalDeviceChallenge quote
            { DeviceId := strings_Join csr.Subject.OrganizationalUnit (str ", "),
              Challenge := msg.ChallengePassword } = (body, none) →
        (∀ (resp : Response) (s1 : σ),
          http.Post url (str "application/json") body s = ((some resp, none), s1) →
          (scepserver.ExternalChallengeMiddleware http (marshalDeviceChallenge quote) url
              scepserver.NopCSRSigner ctx (some msg) s).out
            = (if 200 ≤ resp.StatusCode ∧ resp.StatusCode < 300 then Outcome.ret none none
              else Outcome.ret none (some (errors_New "Invalid challenge"))))
        ∧ (∀ (r : Option Response) (e : GoError) (s1 : σ),
          http.Post url (str "application/json") body s = ((r, some e), s1) →
          (scepserver.ExternalChallengeMiddleware http (marshalDeviceChallenge quote) url
              scepserver.NopCSRSigner ctx (some msg) s).out
            = Outcome.ret none (some (errors_New "Failed to test external challenge")))) := by
  refine ⟨rfl, rfl, ?_, ?_, ?_⟩
  · rw [StaticChallengeMiddleware_run]
    by_cases h : msg.ChallengePassword = S
    · simp [h, CSRSignerContext.SignCSRContext, CSRSignerContextFunc.SignCSRContext,
        scepserver.NopCSRSigner]
    · simp [h, Run.fail]
  · rcases hr : store msg.ChallengePassword s with ⟨⟨valid, err⟩, s1⟩
    cases err with
    | some e => simp [challenge.Middleware, hr, Run.fail]
    | none =>
      cases valid with
      | false => simp [challenge.Middleware, hr, Run.fail]
      | true =>
        simp [challenge.Middleware, hr, Run.after, CSRSignerContext.SignCSRContext,
          CSRSignerContextFunc.SignCSRContext, scepserver.NopCSRSigner]
  · intro csr body hc hm
    constructor
    · intro resp s1 hp
      rw [ExternalChallengeMiddleware_run http _ url _ ctx msg csr body s hc hm, hp]
      by_cases h : 200 ≤ resp.StatusCode ∧ resp.StatusCode < 300
      · simp [h, CSRSignerContext.SignCSRContext, CSRSignerContextFunc.SignCSRContext,
          scepserver.NopCSRSigner]
      · simp [h, Run.fail]
    · intro r e s1 hp
      rw [ExternalChallengeMiddleware_run http _ url _ ctx msg csr body s hc hm, hp]
      rfl

/-- Witness of C13: the no-op signer behind the external middleware, with an
endpoint answering 204. -/
theorem C13_nop_signer_witness :
    (demoRequest [str "ou1"] (str "pw")).CSR
        = some { Raw := [], Subject := { CommonName := str "device", Organization := [],
                                         OrganizationalUnit := [str "ou1"] } }
    ∧ (scepserver.ExternalChallengeMiddleware (statusClient 204)
          (marshalDeviceChallenge plainQuote) (str "https://ra.example/check")
          scepserver.NopCSRSigner background (some (demoRequest [str "ou1"] (str "pw"))) ()).out
        = (if (200 : Int) ≤ 204 ∧ (204 : Int) < 300 then Outcome.ret none none
          else Outcome.ret none (some (errors_New "Invalid challenge"))) :=
  ⟨rfl,
   ((C13_nop_signer (str "topsecret") (fun _ s => ((true, none), s)) (statusClient 204)
      plainQuote (str "https://ra.example/check") background none
      (demoRequest [str "ou1"] (str "pw")) ()).2.2.2.2
      { Raw := [], Subject := { CommonName := str "device", Organization := [],
                                OrganizationalUnit := [str "ou1"] } }
      (str "\x7b\"device_id\":\"ou1\",\"challenge\":\"pw\"\x7d") rfl (by decide)).1
      { StatusCode := 204, Body := [] } () rfl⟩

/-- The instrumented loop computes the accumulator of the plain loop and adds
one pass per byte pair. -/
theorem countedLoop_spec (l : List (Byte × Byte)) (v n : Nat) :
    l.foldl (fun a p => ((a.1 ||| (p.1.val ^^^ p.2.val)) % 256, a.2 + 1)) (v, n)
      = (l.foldl (fun v p => (v ||| (p.1.val ^^^ p.2.val)) % 256) v, n + l.length) := by
  induction l generalizing v n with
  | nil => simp
  | cons p l ih =>
    simp only [List.foldl_cons, List.length_cons]
    rw [ih]
    simp [Nat.add_assoc, Nat.add_comm 1]

/-- The instrumented comparison returns the result of `ConstantTimeCompare`, and
makes one pass per byte when the lengths agree and none when they differ. -/
theorem subtle_ConstantTimeCompare_counted_eq (x y : List Byte) :
    subtle_ConstantTimeCompare_counted x y
      = (subtle_ConstantTimeCompare x y, if x.length = y.length then x.length else 0) := by
  unfold subtle_ConstantTimeCompare_counted subtle_ConstantTimeCompare
  by_cases h : x.length = y.length
  · simp only [ne_eq, h, not_true_eq_false, if_false, if_true]
    rw [countedLoop_spec (x.zip y) 0 0]
    simp [h]
  · simp [h]

/-- C14, the claim as stated fails on the length mismatch: against the secret
"topsecret", the challenge "wrong" (other length) is rejected at once, no byte
being compared, while the challenge "topsecreX" (same length) is rejected after
all nine bytes have been combined.  The length mismatch is short-circuited, not
folded into the comparison loop. -/
theorem C14_length_mismatch_short_circuits :
    subtle_ConstantTimeCompare_counted (str "topsecret") (str "wrong") = (0, 0)
    ∧ subtle_ConstantTimeCompare_counted (str "topsecret") (str "topsecreX") = (0, 9)
    ∧ (subtle_ConstantTimeCompare_counted (str "topsecret") (str "wrong")).1
        = subtle_ConstantTimeCompare (str "topsecret") (str "wrong")
    ∧ scepserver.StaticChallengeMiddleware (str "topsecret") demoSigner background
          (some (demoRequest [] (str "wrong"))) ()
        = Run.fail (errors_New "invalid challenge") () []
    ∧ scepserver.StaticChallengeMiddleware (str "topsecret") demoSigner background
          (some (demoRequest [] (str "topsecreX"))) ()
        = Run.fail (errors_New "invalid challenge") () [] := by
  decide

/-- C14 as amended: the comparison of `StaticChallengeMiddleware` reads the same
number of bytes for any two presented challenges of equal length, whatever
their content, so the work of a rejection does not depend on how many leading
bytes a challenge shares with the secret: for a challenge of the secret's length
every byte pair is combined, with no exit at the first difference.  A challenge
of another length is answered 0 at once, without any byte being compared.  The
instrumented function returns what the comparison used by the middleware
returns. -/
theorem C14_comparison_work_by_length_only (S pw pw2 : GoString)
    (hlen : pw.length = pw2.length) :
    (subtle_ConstantTimeCompare_counted S pw).2 = (subtle_ConstantTimeCompare_counted S pw2).2
    ∧ (subtle_ConstantTimeCompare_counted S pw).2
        = (if S.length = pw.length then S.length else 0)
    ∧ (subtle_ConstantTimeCompare_counted S pw).1 = subtle_ConstantTimeCompare S pw
    ∧ (S.length ≠ pw.length → subtle_ConstantTimeCompare_counted S pw = (0, 0)) := by
  refine ⟨?_, ?_, ?_, ?_⟩
  · simp [subtle_ConstantTimeCompare_counted_eq, hlen]
  · simp [subtle_ConstantTimeCompare_counted_eq]
  · simp [subtle_ConstantTimeCompare_counted_eq]
  · intro h
    simp [subtle_ConstantTimeCompare_counted, h]

/-- Witness of C14 as amended: two wrong challenges of the secret's length, one
sharing eight leading bytes with it, one sharing none. -/
theorem C14_comparison_work_by_length_only_witness :
    (str "topsecreX").length = (str "Xopsecret").length
    ∧ (subtle_ConstantTimeCompare_counted (str "topsecret") (str "topsecreX")).2
        = (subtle_ConstantTimeCompare_counted (str "topsecret") (str "Xopsecret")).2 :=
  ⟨by decide,
   (C14_comparison_work_by_length_only (str "topsecret") (str "topsecreX") (str "Xopsecret")
      (by decide)).1⟩

/-- The calls of `ExternalChallengeMiddleware` once the payload is serialized,
by the result of the POST: the POST alone after a transport failure (or a
missing response), the POST and the close of the body after a status outside
200..299, and the POST, the call of `next` with what `next` records, and the
close of the body after a status in 200..299. -/
theorem ExternalChallengeMiddleware_calls {σ : Type} (http : HTTPClient σ)
    (marshal : DeviceChallenge → List Byte × Option GoError) (url : GoString)
    (next : CSRSignerContextFunc σ) (ctx : Context) (msg : CSRReqMessage)
    (csr : CertificateRequest) (body : List Byte) (s : σ) (hc : msg.CSR = some csr)
    (hm : marshal { DeviceId := strings_Join csr.Subject.OrganizationalUnit (str ", "),
                    Challenge := msg.ChallengePassword } = (body, none))
    (r : Option Response) (e : Option GoError) (s1 : σ)
    (hp : http.Post url (str "application/json") body s = ((r, e), s1)) :
    (scepserver.ExternalChallengeMiddleware http marshal url next ctx (some msg) s).calls
      = Event.Post url (str "application/json") body
        :: (match e, r with
            | some _, _ => []
            | none, none => []
            | none, some resp =>
              if 200 ≤ resp.StatusCode ∧ resp.StatusCode < 300 then
                Event.SignCSRContext ctx (some msg) :: (next ctx (some msg) s1).calls
                  ++ [Event.BodyClose resp]
              else [Event.BodyClose resp]) := by
  rw [ExternalChallengeMiddleware_run http marshal url next ctx msg csr body s hc hm]
  cases e with
  | some e => simp [hp, Run.fail]
  | none =>
    cases r with
    | none => simp [hp]
    | some resp =>
      by_cases h : 200 ≤ resp.StatusCode ∧ resp.StatusCode < 300
      · simp [hp, h, CSRSignerContext.SignCSRContext, CSRSignerContextFunc.SignCSRContext]
      · simp [hp, h, Run.fail]

/-- The `json.Marshal` model at `DeviceChallenge` returns its bytes with a nil
error. -/
theorem marshalDeviceChallenge_ok (quote : GoString → List Byte) (v : DeviceChallenge) :
    marshalDeviceChallenge quote v = ((marshalDeviceChallenge quote v).1, none) := by
  rw [marshalDeviceChallenge_eq]

/-- C15: on a request with its CSR, an invocation of
`ExternalChallengeMiddleware(url, next)` issues one POST, to the configured url
with content type `application/json`, as its first call, so before any call of
`next`.  After a transport failure the POST is its only call; after a status
outside 200..299 only the close of the response body follows; after a status in
200..299 one call of `next` follows, then the close.  The middleware issues no
second POST and calls `next` at most once: with a terminal `next` the run holds
exactly one POST and at most one signer call. -/
theorem C15_external_single_post {σ : Type} (http : HTTPClient σ)
    (quote : GoString → List Byte) (url : GoString)
    (next : CSRSignerContextFunc σ) (ctx : Context) (msg : CSRReqMessage)
    (csr : CertificateRequest) (s : σ) (hc : msg.CSR = some csr) :
    (scepserver.ExternalChallengeMiddleware http (marshalDeviceChallenge quote) url next ctx
        (some msg) s).calls.head?
      = some (Event.Post url (str "application/json")
          (marshalDeviceChallenge quote
            { DeviceId := strings_Join csr.Subject.OrganizationalUnit (str ", "),
              Challenge := msg.ChallengePassword }).1)
    ∧ (∀ (r : Option Response) (e : GoError) (s1 : σ),
        http.Post url (str "application/json")
            (marshalDeviceChallenge quote
              { DeviceId := strings_Join csr.Subject.OrganizationalUnit (str ", "),
                Challenge := msg.ChallengePassword }).1 s = ((r, some e), s1) →
        (scepserver.ExternalChallengeMiddleware http (marshalDeviceChallenge quote) url next
            ctx (some msg) s).calls
          = [Event.Post url (str "application/json")
              (marshalDeviceChallenge quote
                { DeviceId := strings_Join csr.Subject.OrganizationalUnit (str ", "),
                  Challenge := msg.ChallengePassword }).1])
    ∧ (∀ (resp : Response) (s1 : σ),
        http.Post url (str "application/json")
            (marshalDeviceChallenge quote
              { DeviceId := strings_Join csr.Subject.OrganizationalUnit (str ", "),
                Challenge := msg.ChallengePassword }).1 s = ((some resp, none), s1) →
        (scepserver.ExternalChallengeMiddleware http (marshalDeviceChallenge quote) url next
            ctx (some msg) s).calls
          = if 200 ≤ resp.StatusCode ∧ resp.StatusCode < 300 then
              Event.Post url (str "application/json")
                  (marshalDeviceChallenge quote
                    { DeviceId := strings_Join csr.Subject.OrganizationalUnit (str ", "),
                      Challenge := msg.ChallengePassword }).1
                :: Event.SignCSRContext ctx (some msg) :: (next ctx (some msg) s1).calls
                ++ [Event.BodyClose resp]
            else
              [Event.Post url (str "application/json")
                  (marshalDeviceChallenge quote
                    { DeviceId := strings_Join csr.Subject.OrganizationalUnit (str ", "),
                      Challenge := msg.ChallengePassword }).1,
               Event.BodyClose resp])
    ∧ (∀ f : Context → Option CSRReqMessage → σ → Outcome × σ,
        postCalls (scepserver.ExternalChallengeMiddleware http (marshalDeviceChallenge quote)
            url (terminalSigner f) ctx (some msg) s).calls = 1
        ∧ signCalls (scepserver.ExternalChallengeMiddleware http (marshalDeviceChallenge quote)
            url (terminalSigner f) ctx (some msg) s).calls ≤ 1) := by
  refine ⟨?_, ?_, ?_, ?_⟩
  · rcases hp : http.Post url (str "application/json")
        (marshalDeviceChallenge quote
          { DeviceId := strings_Join csr.Subject.OrganizationalUnit (str ", "),
            Challenge := msg.ChallengePassword }).1 s with ⟨⟨r, e⟩, s1⟩
    rw [ExternalChallengeMiddleware_calls http _ url next ctx msg csr _ s hc
      (marshalDeviceChallenge_ok quote _) r e s1 hp]
    rfl
  · intro r e s1 hp
    rw [ExternalChallengeMiddleware_calls http _ url next ctx msg csr _ s hc
      (marshalDeviceChallenge_ok quote _) r (some e) s1 hp]
  · intro resp s1 hp
    rw [ExternalChallengeMiddleware_calls http _ url next ctx msg csr _ s hc
      (marshalDeviceChallenge_ok quote _) (some resp) none s1 hp]
    by_cases h : 200 ≤ resp.StatusCode ∧ resp.StatusCode < 300
    · simp [h]
    · simp [h]
  · intro f
    rcases hp : http.Post url (str "application/json")
        (marshalDeviceChallenge quote
          { DeviceId := strings_Join csr.Subject.OrganizationalUnit (str ", "),
            Challenge := msg.ChallengePassword }).1 s with ⟨⟨r, e⟩, s1⟩
    rw [ExternalChallengeMiddleware_calls http _ url (terminalSigner f) ctx msg csr _ s hc
      (marshalDeviceChallenge_ok quote _) r e s1 hp]
    cases e with
    | some e => simp [postCalls, signCalls, Event.isPost, Event.isSign]
    | none =>
      cases r with
      | none => simp [postCalls, signCalls, Event.isPost, Event.isSign]
      | some resp =>
        by_cases h : 200 ≤ resp.StatusCode ∧ resp.StatusCode < 300
        · simp [h, postCalls, signCalls, Event.isPost, Event.isSign, terminalSigner]
        · simp [h, postCalls, signCalls, Event.isPost, Event.isSign]

/-- Witness of C15: an endpoint answering 403. -/
theorem C15_external_single_post_witness :
    (demoRequest [str "ou1"] (str "pw")).CSR
        = some { Raw := [], Subject := { CommonName := str "device", Organization := [],
                                         OrganizationalUnit := [str "ou1"] } }
    ∧ postCalls (scepserver.ExternalChallengeMiddleware (statusClient 403)
          (marshalDeviceChallenge plainQuote) (str "https://ra.example/check")
          (terminalSigner (fun _ _ s => (Outcome.ret (some demoCert) none, s)))
          background (some (demoRequest [str "ou1"] (str "pw"))) ()).calls = 1 :=
  ⟨rfl,
   ((C15_external_single_post (statusClient 403) plainQuote (str "https://ra.example/check")
      demoSigner background (demoRequest [str "ou1"] (str "pw"))
      { Raw := [], Subject := { CommonName := str "device", Organization := [],
                                OrganizationalUnit := [str "ou1"] } } () rfl).2.2.2
      (fun _ _ s => (Outcome.ret (some demoCert) none, s))).1⟩

/-- What `Middleware` does on a request, by the answer of the store: forwarded
after the lookup when the answer is `(true, nil)`, otherwise stopped with the
error of the store, or with "invalid challenge" when the store gave none. -/
theorem Middleware_run {σ : Type} (store : Validator σ) (next : CSRSignerContextFunc σ)
    (ctx : Context) (msg : CSRReqMessage) (s : σ) :
    challenge.Middleware store next ctx (some msg) s
      = if (store msg.ChallengePassword s).1 = (true, none) then
          (CSRSignerContext.SignCSRContext next ctx (some msg)
            (store msg.ChallengePassword s).2).after [Event.HasChallenge msg.ChallengePassword]
        else
          { out := Outcome.ret none
              (some ((store msg.ChallengePassword s).1.2.getD (errors_New "invalid challenge"))),
            st := (store msg.ChallengePassword s).2,
            calls := [Event.HasChallenge msg.ChallengePassword] } := by
  rcases hr : store msg.ChallengePassword s with ⟨⟨valid, err⟩, s1⟩
  cases err with
  | some e => simp [challenge.Middleware, hr, Run.fail]
  | none =>
    cases valid with
    | false => simp [challenge.Middleware, hr, Run.fail]
    | true => simp [challenge.Middleware, hr]

/-- C16: the decision of `StaticChallengeMiddleware` is made on the
`ChallengePassword` of the request and on nothing else.  For two requests with
the same `ChallengePassword`, whatever their CSR, subject, raw content and
context, each run is the call of `next` when that shared value equals the secret
`S` and the rejection "invalid challenge" with no call when it does not; each is
forwarded if and only if the shared value equals `S`, so both are forwarded or
both are rejected.  The same for the store-backed `Middleware`, started in the
same store state: both runs pass the shared value to `HasChallenge`, each is
forwarded after the lookup if and only if the store answers `(true, nil)` to
that value, and otherwise both end in the same rejection with the lookup as only
call.  The request type carries no message type and the middlewares read
nothing else, so the check is made for every request, of every message type. -/
theorem C16_decision_by_challenge_only {σ : Type} (S : GoString) (store : Validator σ)
    (next : CSRSignerContextFunc σ) (ctx1 ctx2 : Context) (m1 m2 : CSRReqMessage) (s : σ)
    (h : m1.ChallengePassword = m2.ChallengePassword) :
    scepserver.StaticChallengeMiddleware S next ctx1 (some m1) s
        = (if m1.ChallengePassword = S then
            CSRSignerContext.SignCSRContext next ctx1 (some m1) s
          else { out := Outcome.ret none (some (errors_New "invalid challenge")), st := s,
                 calls := [] })
    ∧ scepserver.StaticChallengeMiddleware S next ctx2 (some m2) s
        = (if m1.ChallengePassword = S then
            CSRSignerContext.SignCSRContext next ctx2 (some m2) s
          else { out := Outcome.ret none (some (errors_New "invalid challenge")), st := s,
                 calls := [] })
    ∧ ((scepserver.StaticChallengeMiddleware S next ctx1 (some m1) s).calls.head?
          = some (Event.SignCSRContext ctx1 (some m1)) ↔ m1.ChallengePassword = S)
    ∧ ((scepserver.StaticChallengeMiddleware S next ctx2 (some m2) s).calls.head?
          = some (Event.SignCSRContext ctx2 (some m2)) ↔ m1.ChallengePassword = S)
    ∧ ((scepserver.StaticChallengeMiddleware S next ctx1 (some m1) s).calls = []
          ↔ m1.ChallengePassword ≠ S)
    ∧ ((scepserver.StaticChallengeMiddleware S next ctx2 (some m2) s).calls = []
          ↔ m1.ChallengePassword ≠ S)
    ∧ ((scepserver.StaticChallengeMiddleware S next ctx1 (some m1) s
          = CSRSignerContext.SignCSRContext next ctx1 (some m1) s
        ∧ scepserver.StaticChallengeMiddleware S next ctx2 (some m2) s
          = CSRSignerContext.SignCSRContext next ctx2 (some m2) s)
      ∨ (scepserver.StaticChallengeMiddleware S next ctx1 (some m1) s
          = { out := Outcome.ret none (some (errors_New "invalid challenge")), st := s,
              calls := [] }
        ∧ scepserver.StaticChallengeMiddleware S next ctx2 (some m2) s
          = { out := Outcome.ret none (some (errors_New "invalid challenge")), st := s,
              calls := [] }))
    ∧ challenge.Middleware store next ctx1 (some m1) s
        = (if (store m1.ChallengePassword s).1 = (true, none) then
            (CSRSignerContext.SignCSRContext next ctx1 (some m1)
              (store m1.ChallengePassword s).2).after [Event.HasChallenge m1.ChallengePassword]
          else
            { out := Outcome.ret none
                (some ((store m1.ChallengePassword s).1.2.getD
                  (errors_New "invalid challenge"))),
              st := (store m1.ChallengePassword s).2,
              calls := [Event.HasChallenge m1.ChallengePassword] })
    ∧ challenge.Middleware store next ctx2 (some m2) s
        = (if (store m1.ChallengePassword s).1 = (true, none) then
            (CSRSignerContext.SignCSRContext next ctx2 (some m2)
              (store m1.ChallengePassword s).2).after [Event.HasChallenge m1.ChallengePassword]
          else
            { out := Outcome.ret none
                (some ((store m1.ChallengePassword s).1.2.getD
                  (errors_New "invalid challenge"))),
              st := (store m1.ChallengePassword s).2,
              calls := [Event.HasChallenge m1.ChallengePassword] })
    ∧ ((challenge.Middleware store next ctx1 (some m1) s).calls
          = Event.HasChallenge m1.ChallengePassword :: Event.SignCSRContext ctx1 (some m1)
              :: (next ctx1 (some m1) (store m1.ChallengePassword s).2).calls
        ↔ (store m1.ChallengePassword s).1 = (true, none))
    ∧ ((challenge.Middleware store next ctx2 (some m2) s).calls
          = Event.HasChallenge m1.ChallengePassword :: Event.SignCSRContext ctx2 (some m2)
              :: (next ctx2 (some m2) (store m1.ChallengePassword s).2).calls
        ↔ (store m1.ChallengePassword s).1 = (true, none))
    ∧ ((challenge.Middleware store next ctx1 (some m1) s).calls
          = [Event.HasChallenge m1.ChallengePassword]
        ↔ (store m1.ChallengePassword s).1 ≠ (true, none))
    ∧ ((challenge.Middleware store next ctx2 (some m2) s).calls
          = [Event.HasChallenge m1.ChallengePassword]
        ↔ (store m1.ChallengePassword s).1 ≠ (true, none))
    ∧ (challenge.Middleware store next ctx1 (some m1) s).calls.head?
        = some (Event.HasChallenge m1.ChallengePassword)
    ∧ (challenge.Middleware store next ctx2 (some m2) s).calls.head?
        = some (Event.HasChallenge m1.ChallengePassword)
    ∧ ((challenge.Middleware store next ctx1 (some m1) s
          = (CSRSignerContext.SignCSRContext next ctx1 (some m1)
              (store m1.ChallengePassword s).2).after [Event.HasChallenge m1.ChallengePassword]
        ∧ challenge.Middleware store next ctx2 (some m2) s
          = (CSRSignerContext.SignCSRContext next ctx2 (some m2)
              (store m1.ChallengePassword s).2).after [Event.HasChallenge m1.ChallengePassword])
      ∨ (challenge.Middleware store next ctx1 (some m1) s
          = challenge.Middleware store next ctx2 (some m2) s
        ∧ (challenge.Middleware store next ctx1 (some m1) s).calls
          = [Event.HasChallenge m1.ChallengePassword]
        ∧ signCalls (challenge.Middleware store next ctx1 (some m1) s).calls = 0)) := by
  have hs1 := StaticChallengeMiddleware_run S next ctx1 m1 s
  have hs2 := StaticChallengeMiddleware_run S next ctx2 m2 s
  have hm1 := Middleware_run store next ctx1 m1 s
  have hm2 := Middleware_run store next ctx2 m2 s
  rw [← h] at hs2 hm2
  rw [hs1, hs2, hm1, hm2]
  have hstatic : ∀ P : Prop, (m1.ChallengePassword = S → P) → (m1.ChallengePassword ≠ S → P) → P :=
    fun P hp hn => (Classical.em (m1.ChallengePassword = S)).elim hp hn
  refine ⟨?_, ?_, ?_, ?_, ?_, ?_, ?_, ?_, ?_, ?_, ?_, ?_, ?_, ?_, ?_, ?_⟩
  · apply hstatic <;> intro hS <;> simp [hS, Run.fail]
  · apply hstatic <;> intro hS <;> simp [hS, Run.fail]
  · apply hstatic <;> intro hS <;> simp [hS, Run.fail, CSRSignerContext.SignCSRContext]
  · apply hstatic <;> intro hS <;> simp [hS, Run.fail, CSRSignerContext.SignCSRContext]
  · apply hstatic <;> intro hS <;> simp [hS, Run.fail, CSRSignerContext.SignCSRContext]
  · apply hstatic <;> intro hS <;> simp [hS, Run.fail, CSRSignerContext.SignCSRContext]
  · apply hstatic <;> intro hS <;> simp [hS, Run.fail]
  · rfl
  · rfl
  · by_cases hv : (store m1.ChallengePassword s).1 = (true, none)
    · simp [hv, Run.after, CSRSignerContext.SignCSRContext,
        CSRSignerContextFunc.SignCSRContext]
    · simp [hv]
  · by_cases hv : (store m1.ChallengePassword s).1 = (true, none)
    · simp [hv, Run.after, CSRSignerContext.SignCSRContext,
        CSRSignerContextFunc.SignCSRContext]
    · simp [hv]
  · by_cases hv : (store m1.ChallengePassword s).1 = (true, none)
    · simp [hv, Run.after, CSRSignerContext.SignCSRContext]
    · simp [hv]
  · by_cases hv : (store m1.ChallengePassword s).1 = (true, none)
    · simp [hv, Run.after, CSRSignerContext.SignCSRContext]
    · simp [hv]
  · by_cases hv : (store m1.ChallengePassword s).1 = (true, none)
    · simp [hv, Run.after]
    · simp [hv]
  · by_cases hv : (store m1.ChallengePassword s).1 = (true, none)
    · simp [hv, Run.after]
    · simp [hv]
  · by_cases hv : (store m1.ChallengePassword s).1 = (true, none)
    · left
      simp [hv]
    · right
      simp [hv, signCalls, Event.isSign]

/-- Witness of C16: two requests with the challenge "topsecret", one with an
organizational unit and a cancelled context, one without and a live context;
the second is forwarded by the static middleware because the challenge of the
first equals the secret. -/
theorem C16_decision_by_challenge_only_witness :
    (demoRequest [str "ou1"] (str "topsecret")).ChallengePassword
        = (demoRequest [] (str "topsecret")).ChallengePassword
    ∧ ((scepserver.StaticChallengeMiddleware (str "topsecret") demoSigner background
          (some (demoRequest [] (str "topsecret"))) [str "topsecret"]).calls.head?
          = some (Event.SignCSRContext background (some (demoRequest [] (str "topsecret"))))
        ↔ (demoRequest [str "ou1"] (str "topsecret")).ChallengePassword = str "topsecret") :=
  ⟨rfl,
   (C16_decision_by_challenge_only (str "topsecret") onceStore demoSigner cancelled background
      (demoRequest [str "ou1"] (str "topsecret")) (demoRequest [] (str "topsecret"))
      [str "topsecret"] rfl).2.2.2.1⟩

end Scep
